import Mathlib

/-
Verification of the natural-language specification of the Google Forms bulk
submitter (google_form_bulk_submit.py) against a shallow embedding of its code.

Randomness is modelled parametrically: each call of the Python `random` module
becomes an explicit argument of the embedded function, together with a legality
predicate expressing exactly the postcondition the Python primitive guarantees
(e.g. `random.randint(a, b)` yields some `n` with `a ≤ n ≤ b`, and
`random.sample(l, k)` yields the values of `l` at `k` distinct in-range
positions).  Theorems quantify over all legal draws.
-/

/-! ## Answer synthesizers (lines 180-204 of google_form_bulk_submit.py) -/

/-- The fixed vocabulary of `random_text` (lines 181-184). -/
def words : List String :=
  ["apple", "banana", "car", "dog", "energy", "finance", "goal", "happy",
   "investment", "job", "knowledge", "life", "money", "nature", "option",
   "plan", "quality", "return", "stock", "time", "value", "work", "xray",
   "young", "zebra"]

/-- Line 185: `' '.join(random.sample(words, random.randint(2, 5)))`.
`sel` is the list of positions chosen by `random.sample`. -/
def random_text (sel : List Nat) : String :=
  String.intercalate " " (sel.map (fun i => words.getD i ""))

/-- Line 188: `random_text() + '. ' + random_text() + '.'`. -/
def random_paragraph (s1 s2 : List Nat) : String :=
  random_text s1 ++ ". " ++ random_text s2 ++ "."

/-- Python's `{n:02d}` format specifier: pad with a leading zero to width 2. -/
def pad2 (n : Nat) : String :=
  if n < 10 then "0" ++ toString n else toString n

/-- Line 191: `f"{randint(2000,2030)}-{randint(1,12):02d}-{randint(1,28):02d}"`.
`y`, `m`, `d` are the three `randint` draws. -/
def random_date (y m d : Nat) : String :=
  toString y ++ "-" ++ pad2 m ++ "-" ++ pad2 d

/-- Line 194: `f"{randint(0,23):02d}:{randint(0,59):02d}"`. -/
def random_time (h mi : Nat) : String :=
  pad2 h ++ ":" ++ pad2 mi

/-- Lines 196-197: `random.choice(options) if options else ""`.
`i` is the position drawn by `random.choice` (legal draw: `i < options.length`). -/
def random_choice (options : List String) (i : Nat) : String :=
  if options.isEmpty then "" else options.getD i ""

/-- Lines 199-204: `random.sample(options, randint(1, max(1, len(options)//2)))`
after the `if not options: return []` guard.  `sel` is the list of positions
chosen by `random.sample` (legal draw: `LegalMulti`). -/
def random_multiple (options : List String) (sel : List Nat) : List String :=
  if options.isEmpty then [] else sel.map (fun i => options.getD i "")

/-- Postcondition of `random.sample(l, k)` on positions: `k` distinct in-range
positions of `l`. -/
def LegalSample (n : Nat) (sel : List Nat) : Prop :=
  sel.Nodup ∧ ∀ i ∈ sel, i < n

/-- Legal combined draw of line 203-204: `k = randint(1, max(1, len//2))`
followed by `random.sample(options, k)`. -/
def LegalMulti (options : List String) (sel : List Nat) : Prop :=
  1 ≤ sel.length ∧ sel.length ≤ max 1 (options.length / 2) ∧
    LegalSample options.length sel

instance (n : Nat) (sel : List Nat) : Decidable (LegalSample n sel) := by
  unfold LegalSample; infer_instance

instance (options : List String) (sel : List Nat) : Decidable (LegalMulti options sel) := by
  unfold LegalMulti; infer_instance

/-! ## Independent decoders for the date/time output format.
These re-read a produced string character by character; they are the formal
counterpart of "the string matches YYYY-MM-DD / HH:MM". -/

/-- Read exactly `k` decimal digit characters, accumulating their value;
fail on a non-digit or premature end of input. -/
def readNum : Nat → Nat → List Char → Option (Nat × List Char)
  | 0, acc, cs => some (acc, cs)
  | k + 1, acc, c :: cs =>
      if c.isDigit then readNum k (acc * 10 + (c.toNat - 48)) cs else none
  | _ + 1, _, [] => none

/-- Expect one specific character at the head of the input. -/
def expectChar (c : Char) : List Char → Option (List Char)
  | x :: r => if x = c then some r else none
  | [] => none

/-- Succeeds exactly on strings of shape `YYYY-MM-DD` (4 digits, dash,
2 digits, dash, 2 digits, end of string), returning the decoded numbers. -/
def parseDate (s : String) : Option (Nat × Nat × Nat) :=
  (readNum 4 0 s.data).bind fun p1 =>
    (expectChar '-' p1.2).bind fun r1 =>
      (readNum 2 0 r1).bind fun p2 =>
        (expectChar '-' p2.2).bind fun r2 =>
          (readNum 2 0 r2).bind fun p3 =>
            if p3.2.isEmpty then some (p1.1, p2.1, p3.1) else none

/-- Succeeds exactly on strings of shape `HH:MM` (2 digits, colon, 2 digits,
end of string), returning the decoded numbers. -/
def parseTime (s : String) : Option (Nat × Nat) :=
  (readNum 2 0 s.data).bind fun p1 =>
    (expectChar ':' p1.2).bind fun r1 =>
      (readNum 2 0 r1).bind fun p2 =>
        if p2.2.isEmpty then some (p1.1, p2.1) else none

/-! ## Structure extractor (lines 68-163): per-container classification.
A `Container` records, for one `div[role="listitem"]` question container, the
results of every DOM query the code performs on it:
  - `descendantNames`: the name attributes of all name-bearing descendant
    elements, in document order (the CSS query `[name^="entry."]` of line 79 is
    modelled as a filter over this list);
  - `radios` / `checkboxes`: the `div[role="radio"]` / `div[role="checkbox"]`
    elements, each with its `data-value` and `aria-label` attributes
    (`none` models an absent attribute);
  - `selects`: the native `<select>` elements, each with its name attribute and
    the resolved values of its option elements (line 80 and lines 113-120);
  - `textInputs`, `textareas`, `dateInputs`, `timeInputs`: whether the
    corresponding query of lines 124, 130, 148, 154 returns any element;
  - `radiogroups`: the `div[role="radiogroup"]` elements, each with its nested
    `div[role="radio"]` elements (lines 136-144). -/

structure RadioElem where
  dataValue : Option String
  ariaLabel : Option String
deriving DecidableEq, Repr

structure SelectElem where
  name : Option String
  options : List String
deriving DecidableEq, Repr

structure Container where
  descendantNames : List String
  radios : List RadioElem
  checkboxes : List RadioElem
  selects : List SelectElem
  textInputs : Bool
  textareas : Bool
  radiogroups : List (List RadioElem)
  dateInputs : Bool
  timeInputs : Bool
deriving DecidableEq, Repr

/-- One extracted question: the dict appended at lines 159-163. -/
structure Question where
  entry_id : String
  type : String
  options : List String
deriving DecidableEq, Repr

/-- Python truthiness filter on an attribute read: `None` and `""` are falsy
(the `if val:` checks of lines 93, 97, 105, 109, 119, 143). -/
def truthyAttr : Option String → Option String
  | some s => if s = "" then none else some s
  | none => none

/-- The attribute-prefix test of the CSS selector `[name^="entry."]`. -/
def isEntryName (n : String) : Bool :=
  match n.data with
  | 'e' :: 'n' :: 't' :: 'r' :: 'y' :: '.' :: _ => true
  | _ => false

/-- Line 84: `full_name.split('_')[0]`, i.e. the part before the first
underscore (strips suffixes like `_sentinel`). -/
def entryIdOf (n : String) : String :=
  String.mk (n.data.takeWhile (fun c => c ≠ '_'))

/-- Lines 78-81: concatenation of the two named-element queries
`[name^="entry."]` and `select[name^="entry."]`, as name attributes. -/
def entryNamed (qc : Container) : List String :=
  qc.descendantNames.filter isEntryName ++
    (qc.selects.filterMap SelectElem.name).filter isEntryName

/-- Option collection for role-tagged radio/checkbox elements: data-values
that are truthy; if none, fall back to truthy aria-labels.  This is the
identical logic of lines 90-97 (radios) and 103-109 (checkboxes). -/
def roleOptions (es : List RadioElem) : List String :=
  let vals := es.filterMap (fun e => truthyAttr e.dataValue)
  if vals.isEmpty then es.filterMap (fun e => truthyAttr e.ariaLabel) else vals

/-- Lines 116-120: options of `Select(selects[0])` whose value is truthy. -/
def selectOptions : List SelectElem → List String
  | [] => []
  | s :: _ => s.options.filter (fun v => v ≠ "")

/-- Lines 139-144: truthy data-values of the radios nested in each
radiogroup, in order. -/
def scaleOptions (rgs : List (List RadioElem)) : List String :=
  (rgs.map (fun rg => rg.filterMap (fun r => truthyAttr r.dataValue))).flatten

/-- The type-detection cascade of lines 87-156: each branch is guarded by
`if not q_type:` in the source, so the first matching feature wins. -/
def classifyQ (qc : Container) : Option (String × List String) :=
  if !qc.radios.isEmpty then some ("radio", roleOptions qc.radios)
  else if !qc.checkboxes.isEmpty then some ("checkbox", roleOptions qc.checkboxes)
  else if !qc.selects.isEmpty then some ("dropdown", selectOptions qc.selects)
  else if qc.textInputs then some ("text", [])
  else if qc.textareas then some ("paragraph", [])
  else if !qc.radiogroups.isEmpty then some ("scale", scaleOptions qc.radiogroups)
  else if qc.dateInputs then some ("date", [])
  else if qc.timeInputs then some ("time", [])
  else none

/-- Lines 72-163 for one container: entry id from the first named element
(lines 82-84), type and options from the cascade, and the final guard
`if entry_id and q_type:` of line 158 (`entry_id` truthy means non-empty). -/
def extractQuestion (qc : Container) : Option Question :=
  match entryNamed qc, classifyQ qc with
  | n :: _, some (t, opts) =>
      let e := entryIdOf n
      if e = "" then none else some ⟨e, t, opts⟩
  | _, _ => none

/-- The container loop of lines 72-163: one optional `Question` per
container, in container order. -/
def extract_questions (containers : List Container) : List Question :=
  containers.filterMap extractQuestion

/-! ## Payload builder (lines 209-249) and main-flow model (lines 254-318). -/

/-- The dict returned by `extract_form_structure` (lines 166-171), also the
shape loaded from the JSON cache.  `page_history` is `none` when the
`pageHistory` element was absent (lines 61-66). -/
structure FormStruct where
  action_url : String
  fbzx : String
  page_history : Option String
  questions : List Question
deriving DecidableEq, Repr

/-- The bundle of random draws consumed while answering one question: at most
one of the fields is used, depending on the question type.  `idx` feeds
`random.choice`, `sel` feeds `random.sample` of `random_multiple`, `tsel` and
`tsel2` feed the word sampling of `random_text` / `random_paragraph`, and the
remaining fields feed the `randint` calls of `random_date` / `random_time`. -/
structure Draw where
  idx : Nat
  sel : List Nat
  tsel : List Nat
  tsel2 : List Nat
  year : Nat
  month : Nat
  day : Nat
  hour : Nat
  minute : Nat
deriving DecidableEq, Repr

/-- A draw bundle with all components zero/empty. -/
def draw0 : Draw := ⟨0, [], [], [], 0, 0, 0, 0, 0⟩

/-- The body of the question loop of lines 218-247: the `(key, value)` pairs
appended to `data` for one question `q`, given the draw bundle `dr` consumed
by that iteration.  The branch order is the source's `if`/`elif` order. -/
def questionPairs (q : Question) (dr : Draw) : List (String × String) :=
  if q.type = "radio" ∨ q.type = "dropdown" then
    if q.options.isEmpty then [] else [(q.entry_id, random_choice q.options dr.idx)]
  else if q.type = "checkbox" then
    (random_multiple q.options dr.sel).map (fun v => (q.entry_id, v))
  else if q.type = "text" then [(q.entry_id, random_text dr.tsel)]
  else if q.type = "paragraph" then [(q.entry_id, random_paragraph dr.tsel dr.tsel2)]
  else if q.type = "date" then [(q.entry_id, random_date dr.year dr.month dr.day)]
  else if q.type = "time" then [(q.entry_id, random_time dr.hour dr.minute)]
  else if q.type = "scale" then
    if q.options.isEmpty then [] else [(q.entry_id, random_choice q.options dr.idx)]
  else []

/-- The conditional `pageHistory` entry of lines 214-215: present exactly when
`form_struct.get('page_history')` is truthy (a non-`None`, non-empty string). -/
def pageHistoryPairs (form : FormStruct) : List (String × String) :=
  match form.page_history with
  | some s => if s = "" then [] else [("pageHistory", s)]
  | none => []

/-- Lines 209-249: start from `[('fbzx', ...)]`, append the `pageHistory` pair
when truthy, then run the question loop appending each question's pairs.  The
draw oracle `rnd` gives the bundle consumed at the iteration for question
number `j` (questions are numbered in list order). -/
def build_post_data (form : FormStruct) (rnd : Nat → Draw) : List (String × String) :=
  let data := [("fbzx", form.fbzx)]
  let data :=
    match form.page_history with
    | some s => if s = "" then data else data ++ [("pageHistory", s)]
    | none => data
  form.questions.enum.foldl (fun acc jq => acc ++ questionPairs jq.2 (rnd jq.1)) data

/-- Lines 44-175: the whole Selenium block runs inside `try`, and any
exception `e` (accessor timeout on the form selector, `NoSuchElementException`
on the `fbzx` lookup, ...) is re-raised as `RuntimeError(f"Failed to parse
form: {e}")`.  `body` is the outcome of the accessor-driven block: `ok` with
the assembled struct, or `error` with the exception text. -/
def extract_form_structure (body : Except String FormStruct) : Except String FormStruct :=
  match body with
  | Except.ok s => Except.ok s
  | Except.error e => Except.error ("Failed to parse form: " ++ e)

/-- The schema-acquisition and submission flow of `main` (lines 277-318)
after argument parsing: if the cache file exists, the cached struct is used
and `M` submission attempts run (each attempt's transport errors are caught,
line 312, so the loop always runs `M` times); otherwise `extract_form_structure`
runs, and only on success is the struct written to the cache and the loop
entered — an extraction exception propagates out of `main` uncaught.
The result records the aborting error, or the struct the submissions used,
which struct was newly cached (`none` when the cache was reused), and how
many attempts ran. -/
def main_run (cacheExists : Bool) (cached : FormStruct) (body : Except String FormStruct)
    (M : Nat) : Except String (FormStruct × Option FormStruct × Nat) :=
  if cacheExists then Except.ok (cached, none, M)
  else
    match extract_form_structure body with
    | Except.error e => Except.error e
    | Except.ok s => Except.ok (s, some s, M)

/-! ## Helper lemmas -/

lemma foldl_append_eq {α β : Type} (f : α → List β) (l : List α) (init : List β) :
    l.foldl (fun acc x => acc ++ f x) init = init ++ (l.map f).flatten := by
  induction l generalizing init with
  | nil => simp
  | cons a t ih => simp [List.foldl_cons, ih, List.append_assoc]

/-- The payload built by the question loop is the initial tokens followed by
the per-question groups, flattened in question order. -/
lemma build_post_data_eq (form : FormStruct) (rnd : Nat → Draw) :
    build_post_data form rnd =
      ("fbzx", form.fbzx) ::
        (pageHistoryPairs form ++
          (form.questions.enum.map (fun jq => questionPairs jq.2 (rnd jq.1))).flatten) := by
  unfold build_post_data pageHistoryPairs
  cases hph : form.page_history with
  | none => simp [foldl_append_eq]
  | some s => by_cases hs : s = "" <;> simp [hs, foldl_append_eq]

/-- Every pair a question contributes is keyed by that question's entry id. -/
lemma questionPairs_key (q : Question) (dr : Draw) :
    ∀ p ∈ questionPairs q dr, p.1 = q.entry_id := by
  intro p hp
  unfold questionPairs at hp
  split_ifs at hp <;> simp_all
  obtain ⟨v, hv, rfl⟩ := hp
  rfl

/-- Every name the named-element queries return passes the `entry.` test. -/
lemma entryNamed_isEntry {qc : Container} {n : String} (h : n ∈ entryNamed qc) :
    isEntryName n = true := by
  unfold entryNamed at h
  rcases List.mem_append.1 h with h | h <;> exact (List.mem_filter.1 h).2

/-- The derived entry id of an `entry.`-prefixed name is non-empty, hence
truthy at the guard of line 158. -/
lemma entryIdOf_ne_empty {n : String} (h : isEntryName n = true) : entryIdOf n ≠ "" := by
  unfold isEntryName at h
  split at h
  · next heq =>
      unfold entryIdOf
      rw [heq]
      intro hcontra
      have := congrArg String.data hcontra
      simp at this
  · exact absurd h (by simp)

lemma repr4_parse (y : Nat) (h1 : 2000 ≤ y) (h2 : y ≤ 2030) (rest : List Char) :
    readNum 4 0 ((toString y).data ++ rest) = some (y, rest) := by
  interval_cases y <;> rfl

lemma pad2_parse (n : Nat) (h : n < 60) (rest : List Char) :
    readNum 2 0 ((pad2 n).data ++ rest) = some (n, rest) := by
  interval_cases n <;> rfl

/-! ## Claims -/

/-- C1 (amended): for every closed-domain question with non-empty options,
single-select synthesis (`random_choice`, used for the single-choice,
dropdown-single-choice and linear-scale kinds) returns an element of options;
multi-choice synthesis (`random_multiple`) under a legal draw returns `k`
options chosen at `k` distinct positions of the option list (values may repeat
when the option list itself contains duplicate entries) with
`1 ≤ k ≤ max 1 (len / 2)`; and multi-choice synthesis on empty options
returns the empty list. -/
theorem c1_closed_domain_synthesis (options : List String) (i : Nat) (sel : List Nat)
    (hi : i < options.length) (hsel : LegalMulti options sel) :
    random_choice options i ∈ options ∧
    (random_multiple options sel).length = sel.length ∧
    1 ≤ (random_multiple options sel).length ∧
    (random_multiple options sel).length ≤ max 1 (options.length / 2) ∧
    (∀ v ∈ random_multiple options sel, v ∈ options) ∧
    (∃ idxs : List Nat, idxs.Nodup ∧ (∀ j ∈ idxs, j < options.length) ∧
      random_multiple options sel = idxs.map (fun j => options.getD j "")) ∧
    random_multiple [] sel = [] := by
  unfold LegalMulti LegalSample at hsel
  obtain ⟨hk1, hk2, hnd, hbound⟩ := hsel
  have hne : options.isEmpty = false := by
    cases options with
    | nil => simp at hi
    | cons a t => rfl
  have hrm : random_multiple options sel = sel.map (fun j => options.getD j "") := by
    simp [random_multiple, hne]
  refine ⟨?_, ?_, ?_, ?_, ?_, ?_, rfl⟩
  · simp only [random_choice, hne, Bool.false_eq_true, if_false]
    rw [List.getD_eq_getElem options "" hi]
    exact List.getElem_mem hi
  · rw [hrm]; simp
  · rw [hrm]; simpa using hk1
  · rw [hrm]; simpa using hk2
  · rw [hrm]
    intro v hv
    obtain ⟨j, hj, rfl⟩ := List.mem_map.1 hv
    rw [List.getD_eq_getElem options "" (hbound j hj)]
    exact List.getElem_mem (hbound j hj)
  · exact ⟨sel, hnd, hbound, hrm⟩

/-- C1 counterexample: on an option list with repeated entries, a legal draw
of `random_multiple` (distinct positions `0` and `1`, count `2` within the
cap `max 1 (4 / 2) = 2`) returns the list `["A", "A"]`, which has duplicate
values — refuting "k distinct elements of options (no duplicates)". -/
theorem c1_duplicates_counterexample :
    LegalMulti ["A", "A", "A", "A"] [0, 1] ∧
    random_multiple ["A", "A", "A", "A"] [0, 1] = ["A", "A"] ∧
    ¬ (random_multiple ["A", "A", "A", "A"] [0, 1]).Nodup := by
  refine ⟨by decide, by decide, by decide⟩

/-- C1 witness: the amended theorem applied at a concrete legal draw. -/
theorem c1_closed_domain_synthesis_witness :
    (1 < (["A", "B", "C", "D"] : List String).length) ∧
    LegalMulti ["A", "B", "C", "D"] [2, 0] ∧
    (random_choice ["A", "B", "C", "D"] 1 ∈ (["A", "B", "C", "D"] : List String) ∧
     (random_multiple ["A", "B", "C", "D"] [2, 0]).length = ([2, 0] : List Nat).length ∧
     1 ≤ (random_multiple ["A", "B", "C", "D"] [2, 0]).length ∧
     (random_multiple ["A", "B", "C", "D"] [2, 0]).length ≤
       max 1 ((["A", "B", "C", "D"] : List String).length / 2) ∧
     (∀ v ∈ random_multiple ["A", "B", "C", "D"] [2, 0],
       v ∈ (["A", "B", "C", "D"] : List String)) ∧
     (∃ idxs : List Nat, idxs.Nodup ∧
       (∀ j ∈ idxs, j < (["A", "B", "C", "D"] : List String).length) ∧
       random_multiple ["A", "B", "C", "D"] [2, 0] =
         idxs.map (fun j => (["A", "B", "C", "D"] : List String).getD j "")) ∧
     random_multiple [] [2, 0] = []) :=
  ⟨by decide, by decide,
    c1_closed_domain_synthesis ["A", "B", "C", "D"] 1 [2, 0] (by decide) (by decide)⟩

/-- C2 (amended): for every form struct and draw oracle, the payload is the
anti-spam `fbzx` pair first, then the `pageHistory` pair if the struct has a
non-empty page-sequence token, then the per-question groups in schema
(container) order, one group of zero or more pairs per question. -/
theorem c2_payload_order (form : FormStruct) (rnd : Nat → Draw) :
    build_post_data form rnd =
      ("fbzx", form.fbzx) ::
        (pageHistoryPairs form ++
          (form.questions.enum.map (fun jq => questionPairs jq.2 (rnd jq.1))).flatten) :=
  build_post_data_eq form rnd

/-- C2 counterexample: a form struct whose `page_history` field is present but
equal to the empty string yields a payload with no `pageHistory` pair at all,
refuting "the page-sequence token pair [is emitted] if the schema has one". -/
theorem c2_empty_token_counterexample :
    (FormStruct.page_history ⟨"u", "tok", some "", []⟩).isSome = true ∧
    build_post_data ⟨"u", "tok", some "", []⟩ (fun _ => draw0) = [("fbzx", "tok")] ∧
    ∀ p ∈ build_post_data ⟨"u", "tok", some "", []⟩ (fun _ => draw0), p.1 ≠ "pageHistory" := by
  refine ⟨by decide, by decide, by decide⟩

/-- C3: a choice-type question (single-choice `radio`, dropdown, multi-choice
`checkbox`, linear-scale `scale`) with an empty option list contributes zero
pairs to the payload (the builder, being a total function of its draws, cannot
raise); and a multi-choice question whose legal draw selected `k` options
contributes exactly `k` pairs, all keyed by that question's entry id. -/
theorem c3_empty_options_and_multi_pairs (q : Question) (dr : Draw) :
    ((q.type = "radio" ∨ q.type = "dropdown" ∨ q.type = "checkbox" ∨ q.type = "scale") →
      q.options = [] → questionPairs q dr = []) ∧
    (q.type = "checkbox" → LegalMulti q.options dr.sel →
      (questionPairs q dr).length = dr.sel.length ∧
      ∀ p ∈ questionPairs q dr, p.1 = q.entry_id) := by
  constructor
  · intro ht hopts
    rcases ht with ht | ht | ht | ht <;>
      simp [questionPairs, ht, hopts, random_multiple]
  · intro ht hleg
    unfold LegalMulti LegalSample at hleg
    obtain ⟨hk1, hk2, hnd, hbound⟩ := hleg
    have hlen : 0 < q.options.length := by
      cases hs : dr.sel with
      | nil => rw [hs] at hk1; simp at hk1
      | cons j t =>
          exact Nat.lt_of_le_of_lt (Nat.zero_le j)
            (hbound j (by rw [hs]; exact List.mem_cons_self j t))
    have hne : q.options.isEmpty = false := by
      cases ho : q.options with
      | nil => rw [ho] at hlen; simp at hlen
      | cons a l => rfl
    constructor
    · simp [questionPairs, ht, random_multiple, hne]
    · intro p hp
      exact questionPairs_key q dr p hp

/-- C3 witness: the theorem applied to a concrete empty-options radio question
and a concrete 4-option checkbox question with the legal draw `[1, 3]`. -/
theorem c3_empty_options_and_multi_pairs_witness :
    (questionPairs ⟨"entry.1", "radio", []⟩ draw0 = []) ∧
    ((questionPairs ⟨"entry.2", "checkbox", ["A", "B", "C", "D"]⟩
        ⟨0, [1, 3], [], [], 0, 0, 0, 0, 0⟩).length =
      (Draw.mk 0 [1, 3] [] [] 0 0 0 0 0).sel.length ∧
     ∀ p ∈ questionPairs ⟨"entry.2", "checkbox", ["A", "B", "C", "D"]⟩
        ⟨0, [1, 3], [], [], 0, 0, 0, 0, 0⟩,
       p.1 = (Question.mk "entry.2" "checkbox" ["A", "B", "C", "D"]).entry_id) :=
  ⟨(c3_empty_options_and_multi_pairs ⟨"entry.1", "radio", []⟩ draw0).1 (Or.inl rfl) rfl,
   (c3_empty_options_and_multi_pairs ⟨"entry.2", "checkbox", ["A", "B", "C", "D"]⟩
      ⟨0, [1, 3], [], [], 0, 0, 0, 0, 0⟩).2 rfl (by decide)⟩

/-- C4: every output of date synthesis for legal `randint` draws
(`2000 ≤ y ≤ 2030`, `1 ≤ m ≤ 12`, `1 ≤ d ≤ 28`) is a string of shape
`YYYY-MM-DD` — four digits, dash, two zero-padded digits, dash, two
zero-padded digits, nothing else — decoding back to exactly `(y, m, d)`. -/
theorem c4_date_format (y m d : Nat) (hy1 : 2000 ≤ y) (hy2 : y ≤ 2030)
    (hm1 : 1 ≤ m) (hm2 : m ≤ 12) (hd1 : 1 ≤ d) (hd2 : d ≤ 28) :
    parseDate (random_date y m d) = some (y, m, d) := by
  have e3 := pad2_parse d (by omega) []
  rw [List.append_nil] at e3
  have hsplit : (random_date y m d).data
      = (toString y).data ++ ('-' :: ((pad2 m).data ++ ('-' :: (pad2 d).data))) := by
    have hdash : ("-" : String).data = ['-'] := rfl
    simp [random_date, String.data_append, hdash, List.append_assoc]
  simp [parseDate, hsplit, repr4_parse y hy1 hy2, pad2_parse m (by omega), e3, expectChar]

/-- C4 witness: the theorem applied at the concrete draw `(2017, 4, 9)`. -/
theorem c4_date_format_witness :
    (2000 ≤ 2017 ∧ 2017 ≤ 2030 ∧ 1 ≤ 4 ∧ 4 ≤ 12 ∧ 1 ≤ 9 ∧ 9 ≤ 28) ∧
    parseDate (random_date 2017 4 9) = some (2017, 4, 9) :=
  ⟨by decide,
   c4_date_format 2017 4 9 (by decide) (by decide) (by decide) (by decide)
     (by decide) (by decide)⟩

/-- C5: every output of time synthesis for legal `randint` draws
(`0 ≤ h ≤ 23`, `0 ≤ mi ≤ 59`) is a string of shape `HH:MM` — two zero-padded
digits, colon, two zero-padded digits, nothing else — decoding back to
exactly `(h, mi)`. -/
theorem c5_time_format (h mi : Nat) (hh : h ≤ 23) (hm : mi ≤ 59) :
    parseTime (random_time h mi) = some (h, mi) := by
  have e2 := pad2_parse mi (by omega) []
  rw [List.append_nil] at e2
  have hsplit : (random_time h mi).data
      = (pad2 h).data ++ (':' :: (pad2 mi).data) := by
    have hcolon : (":" : String).data = [':'] := rfl
    simp [random_time, String.data_append, hcolon, List.append_assoc]
  simp [parseTime, hsplit, pad2_parse h (by omega), e2, expectChar]

/-- C5 witness: the theorem applied at the concrete draw `(7, 5)`. -/
theorem c5_time_format_witness :
    (7 ≤ 23 ∧ 5 ≤ 59) ∧ parseTime (random_time 7 5) = some (7, 5) :=
  ⟨by decide, c5_time_format 7 5 (by decide) (by decide)⟩

/-- C6: a container exposing both role-tagged radio elements and role-tagged
checkbox elements (and a field identity) classifies as `radio` (the spec's
single-choice): the radio rule of lines 88-97 fires first, and the extracted
options are the radio options — the checkbox data never enters the result. -/
theorem c6_radio_beats_checkbox (qc : Container)
    (hr : qc.radios ≠ []) (_hc : qc.checkboxes ≠ []) (hn : entryNamed qc ≠ []) :
    ∃ q : Question, extractQuestion qc = some q ∧ q.type = "radio" ∧
      q.options = roleOptions qc.radios := by
  obtain ⟨n, rest, hrest⟩ : ∃ n rest, entryNamed qc = n :: rest := by
    cases h : entryNamed qc with
    | nil => exact absurd h hn
    | cons a t => exact ⟨a, t, rfl⟩
  have hen : isEntryName n = true :=
    entryNamed_isEntry (by rw [hrest]; exact List.mem_cons_self n rest)
  have hid : entryIdOf n ≠ "" := entryIdOf_ne_empty hen
  have hre : qc.radios.isEmpty = false := by
    cases h : qc.radios with
    | nil => exact absurd h hr
    | cons a t => rfl
  have hcls : classifyQ qc = some ("radio", roleOptions qc.radios) := by
    unfold classifyQ
    rw [hre]
    simp
  refine ⟨⟨entryIdOf n, "radio", roleOptions qc.radios⟩, ?_, rfl, rfl⟩
  unfold extractQuestion
  rw [hrest, hcls]
  simp [hid]

/-- C6 witness: a concrete container holding one radio, one checkbox and an
`entry.`-named descendant. -/
def qcBoth : Container :=
  ⟨["entry.100_sentinel"], [⟨some "Yes", none⟩], [⟨some "No", none⟩], [],
   false, false, [], false, false⟩

theorem c6_radio_beats_checkbox_witness :
    qcBoth.radios ≠ [] ∧ qcBoth.checkboxes ≠ [] ∧ entryNamed qcBoth ≠ [] ∧
    ∃ q : Question, extractQuestion qcBoth = some q ∧ q.type = "radio" ∧
      q.options = roleOptions qcBoth.radios :=
  ⟨by decide, by decide, by decide,
   c6_radio_beats_checkbox qcBoth (by decide) (by decide) (by decide)⟩

/-- C7: a container whose first matching feature is a native select (no
radios, no checkboxes, at least one select) classifies as `dropdown` (the
spec's dropdown-single-choice), and its options are exactly the first
select's option values that are non-empty, in order. -/
theorem c7_dropdown_first_select (qc : Container) (s : SelectElem) (ss : List SelectElem)
    (hr : qc.radios = []) (hc : qc.checkboxes = []) (hsel : qc.selects = s :: ss)
    (hn : entryNamed qc ≠ []) :
    ∃ q : Question, extractQuestion qc = some q ∧ q.type = "dropdown" ∧
      q.options = s.options.filter (fun v => v ≠ "") := by
  obtain ⟨n, rest, hrest⟩ : ∃ n rest, entryNamed qc = n :: rest := by
    cases h : entryNamed qc with
    | nil => exact absurd h hn
    | cons a t => exact ⟨a, t, rfl⟩
  have hen : isEntryName n = true :=
    entryNamed_isEntry (by rw [hrest]; exact List.mem_cons_self n rest)
  have hid : entryIdOf n ≠ "" := entryIdOf_ne_empty hen
  have hcls : classifyQ qc = some ("dropdown", s.options.filter (fun v => v ≠ "")) := by
    unfold classifyQ
    rw [hr, hc, hsel]
    simp [selectOptions]
  refine ⟨⟨entryIdOf n, "dropdown", s.options.filter (fun v => v ≠ "")⟩, ?_, rfl, rfl⟩
  unfold extractQuestion
  rw [hrest, hcls]
  simp [hid]

/-- C7 witness: a concrete container with one select offering values
`["", "A", "B"]`; the empty placeholder is excluded and the extracted
question is `dropdown` with options `["A", "B"]`. -/
def qcSel : Container :=
  ⟨["entry.200"], [], [], [⟨some "entry.200", ["", "A", "B"]⟩],
   false, false, [], false, false⟩

theorem c7_dropdown_first_select_witness :
    qcSel.radios = [] ∧ qcSel.checkboxes = [] ∧
    qcSel.selects = (⟨some "entry.200", ["", "A", "B"]⟩ : SelectElem) :: [] ∧
    entryNamed qcSel ≠ [] ∧
    (∃ q : Question, extractQuestion qcSel = some q ∧ q.type = "dropdown" ∧
      q.options = (SelectElem.mk (some "entry.200") ["", "A", "B"]).options.filter
        (fun v => v ≠ "")) ∧
    extractQuestion qcSel = some ⟨"entry.200", "dropdown", ["A", "B"]⟩ :=
  ⟨rfl, rfl, rfl, by decide,
   c7_dropdown_first_select qcSel ⟨some "entry.200", ["", "A", "B"]⟩ [] rfl rfl rfl (by decide),
   by decide⟩

/-- C8: a container with no descendant whose name attribute begins with
`entry.` yields no question, regardless of its other markup, and extraction
of the remaining containers proceeds normally around it. -/
theorem c8_no_entry_name_skipped (qc : Container)
    (h : ∀ n ∈ qc.descendantNames ++ qc.selects.filterMap SelectElem.name,
      isEntryName n = false) :
    extractQuestion qc = none ∧
    ∀ pre post : List Container,
      extract_questions (pre ++ qc :: post) =
        extract_questions pre ++ extract_questions post := by
  have hnil : entryNamed qc = [] := by
    unfold entryNamed
    have h1 : qc.descendantNames.filter isEntryName = [] :=
      List.filter_eq_nil_iff.2 fun n hn => by
        simp [h n (List.mem_append_left _ hn)]
    have h2 : (qc.selects.filterMap SelectElem.name).filter isEntryName = [] :=
      List.filter_eq_nil_iff.2 fun n hn => by
        simp [h n (List.mem_append_right _ hn)]
    rw [h1, h2]
    rfl
  have h0 : extractQuestion qc = none := by
    unfold extractQuestion
    rw [hnil]
  refine ⟨h0, ?_⟩
  intro pre post
  unfold extract_questions
  rw [List.filterMap_append]
  simp [List.filterMap_cons, h0]

/-- C8 witness: a concrete container with a radio, a text input and a named
descendant whose name lacks the `entry.` prefix; it is skipped while its
neighbours are extracted. -/
def qcNoName : Container :=
  ⟨["address"], [⟨some "X", none⟩], [], [], true, false, [], false, false⟩

theorem c8_no_entry_name_skipped_witness :
    (∀ n ∈ qcNoName.descendantNames ++ qcNoName.selects.filterMap SelectElem.name,
      isEntryName n = false) ∧
    extractQuestion qcNoName = none ∧
    extract_questions ([qcBoth] ++ qcNoName :: [qcSel]) =
      extract_questions [qcBoth] ++ extract_questions [qcSel] :=
  ⟨by decide,
   (c8_no_entry_name_skipped qcNoName (by decide)).1,
   (c8_no_entry_name_skipped qcNoName (by decide)).2 [qcBoth] [qcSel]⟩

/-- C9: whenever the extraction body fails (missing form element, missing
`fbzx` anti-spam token, accessor timeout — any exception `e` of the `try`
block), `extract_form_structure` signals a distinct failure condition (the
`RuntimeError` of line 175) carrying the underlying cause in its message; in
that case the no-cache run aborts with that error, so no schema is produced
or written to the cache and no submission attempt runs. -/
theorem c9_extraction_failure_aborts (cached : FormStruct) (e : String) (M : Nat) :
    extract_form_structure (Except.error e) =
      Except.error ("Failed to parse form: " ++ e) ∧
    main_run false cached (Except.error e) M =
      Except.error ("Failed to parse form: " ++ e) ∧
    ∀ t : FormStruct × Option FormStruct × Nat,
      main_run false cached (Except.error e) M ≠ Except.ok t := by
  refine ⟨rfl, rfl, ?_⟩
  intro t h
  simp [main_run, extract_form_structure] at h

/-- C10: the payload contains a `pageHistory` pair exactly when the struct's
`page_history` field is a non-empty string — presence of the key in the dict
is not enough, because line 214 tests truthiness, not key existence.  The
hypothesis rules out a question whose entry id happens to be the literal
string `pageHistory` (real entry ids start with `entry.`). -/
theorem c10_pagehistory_truthiness (form : FormStruct) (rnd : Nat → Draw)
    (h : ∀ q ∈ form.questions, q.entry_id ≠ "pageHistory") :
    (∃ v, ("pageHistory", v) ∈ build_post_data form rnd) ↔
      (∃ s, form.page_history = some s ∧ s ≠ "") := by
  simp only [build_post_data_eq]
  constructor
  · rintro ⟨v, hv⟩
    rcases List.mem_cons.1 hv with heq | hv'
    · simp at heq
    · rcases List.mem_append.1 hv' with hph | hqs
      · revert hph
        unfold pageHistoryPairs
        cases hcase : form.page_history with
        | none => intro hph; simp at hph
        | some s =>
            by_cases hs : s = ""
            · simp [hs]
            · intro hph
              exact ⟨s, rfl, hs⟩
      · exfalso
        rcases List.mem_flatten.1 hqs with ⟨l, hl, hml⟩
        rcases List.mem_map.1 hl with ⟨jq, hjq, rfl⟩
        have hkey := questionPairs_key jq.2 (rnd jq.1) _ hml
        exact h jq.2 (List.snd_mem_of_mem_enum hjq) hkey.symm
  · rintro ⟨s, hs, hne⟩
    refine ⟨s, List.mem_cons_of_mem _ (List.mem_append_left _ ?_)⟩
    unfold pageHistoryPairs
    rw [hs]
    simp [hne]

/-- C10 witness: the theorem applied to a concrete struct with a non-empty
page-sequence token and one text question. -/
def formC10 : FormStruct := ⟨"u", "tok", some "0,12", [⟨"entry.5", "text", []⟩]⟩

theorem c10_pagehistory_truthiness_witness :
    (∀ q ∈ formC10.questions, q.entry_id ≠ "pageHistory") ∧
    ((∃ v, ("pageHistory", v) ∈ build_post_data formC10 (fun _ => draw0)) ↔
      (∃ s, formC10.page_history = some s ∧ s ≠ "")) :=
  ⟨by decide, c10_pagehistory_truthiness formC10 (fun _ => draw0) (by decide)⟩

/-- C9 witness: the theorem applied at a concrete exception text and run. -/
theorem c9_extraction_failure_aborts_witness :
    extract_form_structure (Except.error "timeout") =
      Except.error ("Failed to parse form: " ++ "timeout") ∧
    main_run false formC10 (Except.error "timeout") 3 =
      Except.error ("Failed to parse form: " ++ "timeout") ∧
    ∀ t : FormStruct × Option FormStruct × Nat,
      main_run false formC10 (Except.error "timeout") 3 ≠ Except.ok t :=
  c9_extraction_failure_aborts formC10 "timeout" 3
